import Mathlib

/-!
Verification development for the Vera "Smart Saver" AI-response cache
subsystem: fingerprint generation (`src/vera/src/lib/ai/cache.ts`), the
cache store contract over the `food_cache` table
(`src/vera/supabase/food-cache-schema.sql`), the provider fallback chain
(`src/vera/src/lib/ai/gemini.ts` / `client.ts`), and the analysis
orchestrator (`src/vera/src/app/actions/analyzeFood.ts`).

The TypeScript is shallowly embedded: JS numbers of the nutrition payload
become `Int`, JS strings become `String`, optional / possibly-undefined
fields become `Option`, JS truthiness is modelled explicitly (`""`, `0`,
`undefined` are falsy), and every awaited external call (Supabase query,
provider HTTP call, JSON.parse) is passed in as an explicit oracle
argument or modelled as explicit state passing over a table value.
MD5 (used by `createHash("md5")`) is implemented concretely (RFC 1321)
over byte lists so fingerprints compute.
-/

set_option maxRecDepth 8192

namespace Vera

/-! ## JS string primitives

`generateTextHash` normalizes with
`text.toLowerCase().trim().replace(/\s+/g, " ").replace(/[^\w\s]/g, "")`.
We model the JS `\s` class by its common members (ASCII whitespace, NBSP,
BOM) and `\w` by `[A-Za-z0-9_]` (the non-unicode-flag JS semantics).
Case mapping is modelled on the ASCII range `A`-`Z`. -/

def isJsSpace (c : Char) : Bool :=
  c.toNat = 32 || c.toNat = 9 || c.toNat = 10 || c.toNat = 11 ||
  c.toNat = 12 || c.toNat = 13 || c.toNat = 160 || c.toNat = 65279

def isWordChar (c : Char) : Bool :=
  (97 ≤ c.toNat && c.toNat ≤ 122) || (65 ≤ c.toNat && c.toNat ≤ 90) ||
  (48 ≤ c.toNat && c.toNat ≤ 57) || c.toNat = 95

def jsToLower (c : Char) : Char :=
  if 65 ≤ c.toNat && c.toNat ≤ 90 then Char.ofNat (c.toNat + 32) else c

/-- JS `String.prototype.trim`: drop leading and trailing whitespace. -/
def jsTrimChars (l : List Char) : List Char :=
  ((l.dropWhile isJsSpace).reverse.dropWhile isJsSpace).reverse

/-- JS `.replace(/\s+/g, " ")`: every maximal whitespace run becomes one
space. The `Bool` flag records whether we are inside a whitespace run. -/
def collapseGo : Bool → List Char → List Char
  | _, [] => []
  | inRun, c :: rest =>
    if isJsSpace c then
      if inRun then collapseGo true rest else ' ' :: collapseGo true rest
    else c :: collapseGo false rest

def collapseWs (l : List Char) : List Char := collapseGo false l

/-- JS `.replace(/[^\w\s]/g, "")`: delete every non-word non-space char. -/
def stripNonWord (l : List Char) : List Char :=
  l.filter (fun c => isWordChar c || isJsSpace c)

/-- The normalization pipeline of `generateTextHash` (cache.ts lines
38-42): lowercase, trim, collapse whitespace runs, strip punctuation. -/
def normalizeText (s : String) : String :=
  String.mk (stripNonWord (collapseWs (jsTrimChars (s.data.map jsToLower))))

def jsToLowerStr (s : String) : String := String.mk (s.data.map jsToLower)

/-- Deletion of the punctuation class `[^\w\s]` alone (used to state what
"two inputs differing only in punctuation" means). -/
def removePunct (s : String) : String :=
  String.mk (s.data.filter (fun c => isWordChar c || isJsSpace c))

/-! ## Base64 (Node `Buffer.toString("base64")`, standard alphabet) -/

def base64Alphabet : List Char :=
  ("ABCDEFGHIJKLMNOPQRSTUVWXYZabcdefghijklmnopqrstuvwxyz0123456789+/").data

def b64c (n : Nat) : Char := base64Alphabet.getD n 'A'

def base64Core : List Nat → List Char
  | [] => []
  | [a] => [b64c (a / 4), b64c (a % 4 * 16), '=', '=']
  | [a, b] => [b64c (a / 4), b64c (a % 4 * 16 + b / 16), b64c (b % 16 * 4), '=']
  | a :: b :: c :: rest =>
    b64c (a / 4) :: b64c (a % 4 * 16 + b / 16) ::
    b64c (b % 16 * 4 + c / 64) :: b64c (c % 64) :: base64Core rest

def base64String (bytes : List Nat) : String := String.mk (base64Core bytes)

/-! ## MD5 (RFC 1321), over byte lists, 32-bit words as `Nat % 2^32` -/

def md5K : List Nat :=
  [0xd76aa478, 0xe8c7b756, 0x242070db, 0xc1bdceee,
   0xf57c0faf, 0x4787c62a, 0xa8304613, 0xfd469501,
   0x698098d8, 0x8b44f7af, 0xffff5bb1, 0x895cd7be,
   0x6b901122, 0xfd987193, 0xa679438e, 0x49b40821,
   0xf61e2562, 0xc040b340, 0x265e5a51, 0xe9b6c7aa,
   0xd62f105d, 0x02441453, 0xd8a1e681, 0xe7d3fbc8,
   0x21e1cde6, 0xc33707d6, 0xf4d50d87, 0x455a14ed,
   0xa9e3e905, 0xfcefa3f8, 0x676f02d9, 0x8d2a4c8a,
   0xfffa3942, 0x8771f681, 0x6d9d6122, 0xfde5380c,
   0xa4beea44, 0x4bdecfa9, 0xf6bb4b60, 0xbebfbc70,
   0x289b7ec6, 0xeaa127fa, 0xd4ef3085, 0x04881d05,
   0xd9d4d039, 0xe6db99e5, 0x1fa27cf8, 0xc4ac5665,
   0xf4292244, 0x432aff97, 0xab9423a7, 0xfc93a039,
   0x655b59c3, 0x8f0ccc92, 0xffeff47d, 0x85845dd1,
   0x6fa87e4f, 0xfe2ce6e0, 0xa3014314, 0x4e0811a1,
   0xf7537e82, 0xbd3af235, 0x2ad7d2bb, 0xeb86d391]

def md5S : List Nat :=
  [7, 12, 17, 22, 7, 12, 17, 22, 7, 12, 17, 22, 7, 12, 17, 22,
   5, 9, 14, 20, 5, 9, 14, 20, 5, 9, 14, 20, 5, 9, 14, 20,
   4, 11, 16, 23, 4, 11, 16, 23, 4, 11, 16, 23, 4, 11, 16, 23,
   6, 10, 15, 21, 6, 10, 15, 21, 6, 10, 15, 21, 6, 10, 15, 21]

def mask32 : Nat := 4294967296

def not32 (x : Nat) : Nat := 4294967295 ^^^ x

/-- Left-rotation of a 32-bit word (argument assumed `< 2^32`). -/
def rotl32 (x n : Nat) : Nat := (x * 2 ^ n) % mask32 + x / 2 ^ (32 - n)

structure MD5State where
  a : Nat
  b : Nat
  c : Nat
  d : Nat

def md5Step (M : Nat → Nat) (st : MD5State) (i : Nat) : MD5State :=
  let f :=
    if i < 16 then (st.b &&& st.c) ||| (not32 st.b &&& st.d)
    else if i < 32 then (st.d &&& st.b) ||| (not32 st.d &&& st.c)
    else if i < 48 then st.b ^^^ st.c ^^^ st.d
    else st.c ^^^ (st.b ||| not32 st.d)
  let g :=
    if i < 16 then i
    else if i < 32 then (5 * i + 1) % 16
    else if i < 48 then (3 * i + 5) % 16
    else 7 * i % 16
  let tmp := (st.a + f + md5K.getD i 0 + M g) % mask32
  ⟨st.d, (st.b + rotl32 tmp (md5S.getD i 0)) % mask32, st.b, st.c⟩

def md5Chunk (M : Nat → Nat) (st : MD5State) : MD5State :=
  let r := (List.range 64).foldl (md5Step M) st
  ⟨(st.a + r.a) % mask32, (st.b + r.b) % mask32,
   (st.c + r.c) % mask32, (st.d + r.d) % mask32⟩

/-- Message padding: `0x80`, zeros to 56 mod 64, 8-byte little-endian
bit length. -/
def md5Pad (msg : List Nat) : List Nat :=
  let len := msg.length
  let zeros := (56 + 64 - (len + 1) % 64) % 64
  msg ++ 128 :: List.replicate zeros 0 ++
    (List.range 8).map (fun i => len * 8 % 2 ^ 64 / 2 ^ (8 * i) % 256)

/-- Little-endian 32-bit word at byte offset `o` of the padded message. -/
def wordAt (p : List Nat) (o : Nat) : Nat :=
  p.getD o 0 + 256 * p.getD (o + 1) 0 + 65536 * p.getD (o + 2) 0 +
    16777216 * p.getD (o + 3) 0

def le4 (n : Nat) : List Nat :=
  [n % 256, n / 256 % 256, n / 65536 % 256, n / 16777216 % 256]

def md5Bytes (msg : List Nat) : List Nat :=
  let p := md5Pad msg
  let final := (List.range (p.length / 64)).foldl
    (fun st i => md5Chunk (fun j => wordAt p (64 * i + 4 * j)) st)
    ⟨0x67452301, 0xefcdab89, 0x98badcfe, 0x10325476⟩
  le4 final.a ++ le4 final.b ++ le4 final.c ++ le4 final.d

def hexDigit (n : Nat) : Char := ("0123456789abcdef").data.getD n '0'

def bytesToHex (l : List Nat) : List Char :=
  l.foldr (fun b acc => hexDigit (b / 16) :: hexDigit (b % 16) :: acc) []

/-- Hex MD5 digest of a string. Every digest input in this subsystem is
pure ASCII (normalized text is `[a-z0-9_ ]*`, image inputs are
`size:base64`, combined inputs are hex digests), so byte encoding is
`Char.toNat` per character, which on ASCII agrees with UTF-8. -/
def md5HexAscii (s : String) : String :=
  String.mk (bytesToHex (md5Bytes (s.data.map Char.toNat)))

example : md5HexAscii ("") = "d41d8cd98f00b204e9800998ecf8427e" := by decide
example : md5HexAscii ("abc") = "900150983cd24fb0d6963f7d28e17f72" := by decide
example : md5HexAscii ("The quick brown fox jumps over the lazy dog")
    = "9e107d9d372bb6826bd81d3542a419d6" := by decide
example : normalizeText ("  Rajma   Chawal!! ") = "rajma chawal" := by decide

/-! ## JS truthiness helpers

`x || d` in JS picks `d` when `x` is falsy (`undefined`, `""`, `0`). -/

/-- Truthiness of an optional JS string (`undefined` and `""` falsy). -/
def jsTruthyS (o : Option String) : Bool :=
  match o with
  | none => false
  | some s => !(s == "")

/-- JS `s || d` for a plain string `s`. -/
def jsOrStr (s d : String) : String := if s == "" then d else s

/-- JS `o || d` for a possibly-undefined string. -/
def jsOrS (o : Option String) (d : String) : String :=
  match o with
  | none => d
  | some s => jsOrStr s d

/-- JS `n || d` for a number (`0` falsy). -/
def jsOrInt (n d : Int) : Int := if n == 0 then d else n

/-- JS `o || d` for a possibly-undefined number. -/
def jsOrOptInt (o : Option Int) (d : Int) : Int :=
  match o with
  | none => d
  | some n => jsOrInt n d

def jsTrimStr (s : String) : String := String.mk (jsTrimChars s.data)

/-! ## Fingerprint generator (cache.ts lines 37-76)

A JS `File`/`Blob` is its byte content plus a name and MIME type;
`file.size` is the byte length. -/

structure JsFile where
  name : String
  mime : String
  content : List Nat

def JsFile.size (f : JsFile) : Nat := f.content.length

/-- `generateTextHash` (cache.ts 37-45): md5 of the type-tagged
normalized text. -/
def generateTextHash (text : String) : String :=
  md5HexAscii ("text:" ++ normalizeText text)

/-- `generateImageHash` (cache.ts 51-59): md5 of
`image:<size>:<base64 of first 2048 bytes>`. -/
def generateImageHash (file : JsFile) : String :=
  md5HexAscii ("image:" ++ toString file.size ++ ":" ++
    base64String (file.content.take 2048))

/-- `generateCombinedHash` (cache.ts 64-76): md5 of
`<textHash>:<imageHash>`, degrading to the text hash without an image. -/
def generateCombinedHash (text : String) (imageFile : Option JsFile) : String :=
  match imageFile with
  | some f => md5HexAscii (generateTextHash text ++ ":" ++ generateImageHash f)
  | none => generateTextHash text

/-! ## Data model

`NutritionResult` (client.ts): the provider-agnostic payload. The fields
arrive from `JSON.parse` of a provider reply through an unchecked cast,
so `calories` — the one field whose runtime type the orchestrator checks
with `typeof ... !== "number"` — is modelled as `Option Int`: `some n`
when the runtime value is a number, `none` otherwise. -/

structure NutritionResult where
  name : String
  calories : Option Int
  protein : Int
  carbs : Int
  fats : Int
  fiber : Int
  portionSize : String
  portionGrams : Int
  healthScore : String
  healthTip : String
  cookingMethod : Option String
  cuisineType : Option String
  confidence : String
  alternativeNames : Option (List String)
deriving DecidableEq

/-- `CachedFood` (cache.ts 14-31): the record shape returned by cache
reads; optional fields are possibly-null database columns. -/
structure CachedFood where
  id : Nat
  queryHash : String
  foodName : String
  calories : Option Int
  protein : Int
  carbs : Int
  fats : Int
  fiber : Int
  portionSize : Option String
  portionGrams : Option Int
  healthScore : Option String
  healthTip : Option String
  cookingMethod : Option String
  cuisineType : Option String
  aiProvider : Option String
  hitCount : Int
deriving DecidableEq

/-- One row of the `food_cache` table (food-cache-schema.sql). `id` is
the primary key (`gen_random_uuid()`, modelled as a counter); timestamps
are abstract instants (`Nat`). -/
structure FoodCacheRow where
  id : Nat
  query_hash : String
  query_type : String
  query_text : String
  food_name : String
  calories : Option Int
  protein : Int
  carbs : Int
  fats : Int
  fiber : Int
  portion_size : Option String
  portion_grams : Option Int
  health_score : Option String
  health_tip : Option String
  cooking_method : Option String
  cuisine_type : Option String
  ai_provider : Option String
  hit_count : Int
  created_at : Nat
  last_used_at : Nat
deriving DecidableEq

/-- The durable cache store: the `food_cache` table contents plus the id
generator. -/
structure CacheDB where
  rows : List FoodCacheRow
  nextId : Nat
deriving DecidableEq

def emptyDB : CacheDB := ⟨[], 0⟩

/-- The column set supplied by `saveToCach`'s upsert payload (cache.ts
142-161). `created_at` is NOT among the supplied columns. -/
structure UpsertPayload where
  query_hash : String
  query_type : String
  query_text : String
  food_name : String
  calories : Option Int
  protein : Int
  carbs : Int
  fats : Int
  fiber : Int
  portion_size : Option String
  portion_grams : Option Int
  health_score : Option String
  health_tip : Option String
  cooking_method : Option String
  cuisine_type : Option String
  ai_provider : Option String
  hit_count : Int
  last_used_at : Nat

/-- `SELECT * ... eq("query_hash", h) single()`: point lookup by the
unique fingerprint column. -/
def dbSelectByHash (db : CacheDB) (h : String) : Option FoodCacheRow :=
  db.rows.find? (fun row => row.query_hash == h)

/-- `INSERT ... ON CONFLICT (query_hash) DO UPDATE SET <payload columns>`
(PostgREST upsert with `onConflict: "query_hash"`): on conflict every
supplied column is replaced and `id` / `created_at` (absent from the
payload) are preserved; otherwise a fresh row is inserted, `created_at`
taking its `DEFAULT NOW()`. -/
def applyPayload (old : FoodCacheRow) (p : UpsertPayload) : FoodCacheRow :=
  { id := old.id, created_at := old.created_at,
    query_hash := p.query_hash, query_type := p.query_type,
    query_text := p.query_text, food_name := p.food_name,
    calories := p.calories, protein := p.protein, carbs := p.carbs,
    fats := p.fats, fiber := p.fiber, portion_size := p.portion_size,
    portion_grams := p.portion_grams, health_score := p.health_score,
    health_tip := p.health_tip, cooking_method := p.cooking_method,
    cuisine_type := p.cuisine_type, ai_provider := p.ai_provider,
    hit_count := p.hit_count, last_used_at := p.last_used_at }

def insertRow (p : UpsertPayload) (newId now : Nat) : FoodCacheRow :=
  { id := newId, created_at := now,
    query_hash := p.query_hash, query_type := p.query_type,
    query_text := p.query_text, food_name := p.food_name,
    calories := p.calories, protein := p.protein, carbs := p.carbs,
    fats := p.fats, fiber := p.fiber, portion_size := p.portion_size,
    portion_grams := p.portion_grams, health_score := p.health_score,
    health_tip := p.health_tip, cooking_method := p.cooking_method,
    cuisine_type := p.cuisine_type, ai_provider := p.ai_provider,
    hit_count := p.hit_count, last_used_at := p.last_used_at }

def upsertRows (p : UpsertPayload) (newId now : Nat) : List FoodCacheRow → List FoodCacheRow
  | [] => [insertRow p newId now]
  | row :: rest =>
    if row.query_hash == p.query_hash then applyPayload row p :: rest
    else row :: upsertRows p newId now rest

def dbUpsert (db : CacheDB) (p : UpsertPayload) (now : Nat) : CacheDB :=
  ⟨upsertRows p db.nextId now db.rows, db.nextId + 1⟩

/-- `UPDATE food_cache SET hit_count = c, last_used_at = now WHERE id = i`. -/
def dbUpdateHit (db : CacheDB) (i : Nat) (c : Int) (now : Nat) : CacheDB :=
  ⟨db.rows.map (fun row =>
      if row.id == i then { row with hit_count := c, last_used_at := now }
      else row),
    db.nextId⟩

/-- The row-to-`CachedFood` mapping of `getCachedResult` (cache.ts
104-121); note `fiber: data.fiber || 0` and that `hitCount` is the value
read BEFORE the hit-count update. -/
def rowToCachedFood (data : FoodCacheRow) : CachedFood :=
  { id := data.id, queryHash := data.query_hash,
    foodName := data.food_name, calories := data.calories,
    protein := data.protein, carbs := data.carbs, fats := data.fats,
    fiber := jsOrInt data.fiber 0, portionSize := data.portion_size,
    portionGrams := data.portion_grams, healthScore := data.health_score,
    healthTip := data.health_tip, cookingMethod := data.cooking_method,
    cuisineType := data.cuisine_type, aiProvider := data.ai_provider,
    hitCount := data.hit_count }

/-! ## Cache store operations (cache.ts)

Each Supabase round trip can fail (an `error` result or a thrown
exception caught by the surrounding `try`); the `err` argument injects
such a storage failure (`some e`) or lets the call reach the table
(`none`). -/

/-- `getCachedResult` (cache.ts 81-126): point lookup; on a hit, update
`hit_count` to `(data.hit_count || 0) + 1` and refresh `last_used_at`,
then return the record as read. Any error yields `none` (cache miss) and
leaves the store untouched. -/
def getCachedResult (err : Option String) (db : CacheDB) (now : Nat)
    (queryHash : String) : Option CachedFood × CacheDB :=
  match err with
  | some _ => (none, db)
  | none =>
    match dbSelectByHash db queryHash with
    | none => (none, db)
    | some data =>
      (some (rowToCachedFood data),
       dbUpdateHit db data.id (jsOrInt data.hit_count 0 + 1) now)

/-- The upsert payload built by `saveToCach` (cache.ts 142-161):
`query_text` capped at 500 chars, `fiber: result.fiber || 0`,
`hit_count: 1`, `last_used_at: now`; no `created_at` column. -/
def mkUpsertPayload (queryHash queryType queryText : String)
    (result : NutritionResult) (provider : String) (now : Nat) : UpsertPayload :=
  { query_hash := queryHash, query_type := queryType,
    query_text := String.mk (queryText.data.take 500),
    food_name := result.name, calories := result.calories,
    protein := result.protein, carbs := result.carbs, fats := result.fats,
    fiber := jsOrInt result.fiber 0,
    portion_size := some result.portionSize,
    portion_grams := some result.portionGrams,
    health_score := some result.healthScore,
    health_tip := some result.healthTip,
    cooking_method := result.cookingMethod,
    cuisine_type := result.cuisineType,
    ai_provider := some provider, hit_count := 1, last_used_at := now }

/-- `saveToCach` (cache.ts 131-178): upsert keyed on `query_hash`; a
storage error is swallowed and reported as `false`. -/
def saveToCach (err : Option String) (db : CacheDB) (now : Nat)
    (queryHash queryType queryText : String) (result : NutritionResult)
    (provider : String) : Bool × CacheDB :=
  match err with
  | some _ => (false, db)
  | none =>
    (true, dbUpsert db (mkUpsertPayload queryHash queryType queryText result provider now) now)

/-- `cachedToNutrition` (cache.ts 183-199): coerce a cached record into a
`NutritionResult`, substituting defaults for falsy fields and forcing
`confidence` to `"high"`. -/
def cachedToNutrition (cached : CachedFood) : NutritionResult :=
  { name := cached.foodName, calories := cached.calories,
    protein := cached.protein, carbs := cached.carbs, fats := cached.fats,
    fiber := cached.fiber,
    portionSize := jsOrS cached.portionSize "medium",
    portionGrams := jsOrOptInt cached.portionGrams 100,
    healthScore := jsOrS cached.healthScore "good",
    healthTip := jsOrS cached.healthTip "",
    cookingMethod := cached.cookingMethod,
    cuisineType := cached.cuisineType,
    confidence := "high", alternativeNames := none }

/-- `findSimilarCached` (cache.ts 205-242): full-text search over
`query_text` ordered by `hit_count` descending, capped at `limit` — the
ordering and cap are executed inside the database, so the search outcome
is the oracle `searchRes` (`.error` = storage/search failure, `.ok none`
= no data, `.ok (some rows)` = the ordered, capped result set). -/
def findSimilarCached (query : String) (limit : Nat)
    (searchRes : Except String (Option (List FoodCacheRow))) : List CachedFood :=
  match searchRes with
  | .error _ => []
  | .ok none => []
  | .ok (some rows) => rows.map rowToCachedFood

/-! ## Inference provider chain (client.ts / gemini.ts)

`AIAnalysisResult` is the uniform result envelope. A provider HTTP call
is an oracle: for Groq, `Except String (Option String)` — `.error e` is
a thrown provider error (already passed through JS `String(error)`),
`.ok content` is `choices[0]?.message?.content` (possibly absent); for
Gemini, `Except String String` (`response.text()` always yields a
string). `jsonParse` is the `JSON.parse`-plus-cast oracle used by
`parseAIResponse`. -/

structure AIAnalysisResult where
  success : Bool
  data : Option NutritionResult
  provider : Option String
  error : Option String
deriving DecidableEq

/-- `parseAIResponse` (client.ts 334-346): trim, strip a markdown code
fence, then `JSON.parse` (the oracle); `null` on parse failure. -/
def parseAIResponse (jsonParse : String → Option NutritionResult)
    (text : String) : Option NutritionResult :=
  let cleaned := text.trim
  let cleaned :=
    if cleaned.startsWith ("```json") then cleaned.drop 7
    else if cleaned.startsWith ("```") then cleaned.drop 3
    else cleaned
  let cleaned := if cleaned.endsWith ("```") then cleaned.dropRight 3 else cleaned
  jsonParse cleaned.trim

/-- JS template interpolation of a possibly-undefined value. -/
def jsInterp (o : Option String) : String :=
  match o with
  | none => "undefined"
  | some s => s

/-- `analyzeWithGroq` (client.ts 352-423): call the Groq API; a thrown
error, a falsy (absent or empty) `content`, or a parse failure each
produce `success: false` with `String(error)` recorded (internal throws
are `new Error(...)`, whose string form is `"Error: " + message`). -/
def analyzeWithGroq (resp : Except String (Option String))
    (jsonParse : String → Option NutritionResult) : AIAnalysisResult :=
  match resp with
  | .error e => ⟨false, none, some "groq", some e⟩
  | .ok none => ⟨false, none, some "groq", some ("Error: Empty response from Groq")⟩
  | .ok (some content) =>
    if content == "" then
      ⟨false, none, some "groq", some ("Error: Empty response from Groq")⟩
    else
      match parseAIResponse jsonParse content with
      | none => ⟨false, none, some "groq", some ("Error: Failed to parse Groq response")⟩
      | some data => ⟨true, some data, some "groq", none⟩

/-- `analyzeWithGemini` (gemini.ts 429-462): call Gemini; a thrown error
or a parse failure produce `success: false`. -/
def analyzeWithGemini (resp : Except String String)
    (jsonParse : String → Option NutritionResult) : AIAnalysisResult :=
  match resp with
  | .error e => ⟨false, none, some "gemini", some e⟩
  | .ok content =>
    match parseAIResponse jsonParse content with
    | none => ⟨false, none, some "gemini", some ("Error: Failed to parse Gemini response")⟩
    | some data => ⟨true, some data, some "gemini", none⟩

/-- Trace of one provider-chain invocation: the returned envelope plus
which providers were actually called. -/
structure ChainTrace where
  result : AIAnalysisResult
  groqCalled : Bool
  geminiCalled : Bool
deriving DecidableEq

/-- `analyzeWithFallback` (gemini.ts 468-499): Groq first; on failure
fall through to Gemini with the same input; if both fail, report both
error messages concatenated. -/
def analyzeWithFallback (groqResp : Except String (Option String))
    (geminiResp : Except String String)
    (jsonParse : String → Option NutritionResult) : ChainTrace :=
  let groqResult := analyzeWithGroq groqResp jsonParse
  if groqResult.success then ⟨groqResult, true, false⟩
  else
    let geminiResult := analyzeWithGemini geminiResp jsonParse
    if geminiResult.success then ⟨geminiResult, true, true⟩
    else
      ⟨⟨false, none, none,
        some ("Both AI providers failed. Groq: " ++ jsInterp groqResult.error ++
          ". Gemini: " ++ jsInterp geminiResult.error)⟩,
       true, true⟩

/-! ## Analysis orchestrator (analyzeFood.ts)

`analyzeFood` awaits `getCachedResult`, `analyzeWithFallback`,
`saveToCach` and `saveFoodLog`; those four externals are oracles:
`cacheGet` is the cache lookup outcome by fingerprint, `chain` maps the
assembled `(textPrompt, imageBase64, imageMimeType)` to the chain
envelope, and `logSave` is the food-log insert outcome (`some logId` on
success). The trace records the call effects the claims speak about. -/

structure AnalyzeFoodInput where
  imageFile : Option JsFile
  imageUrl : Option String
  text : Option String
  audioTranscript : Option String
  mealType : Option String
  saveToLog : Bool
  skipCache : Bool

structure AnalyzeFoodResult where
  success : Bool
  error : Option String
  data : Option NutritionResult
  provider : Option String
  fromCache : Option Bool
  logId : Option String
deriving DecidableEq

/-- Arguments of the (single possible) `saveToCach` call. -/
structure SaveArgs where
  queryHash : String
  queryType : String
  queryText : String
  result : NutritionResult
  provider : Option String
deriving DecidableEq

structure AnalyzeTrace where
  result : AnalyzeFoodResult
  cacheChecked : Bool
  freshResult : Option AIAnalysisResult
  cacheWrite : Option SaveArgs

/-- The input-validation test (analyzeFood.ts 55): the request is
rejected iff image file, image URL, text and transcript are ALL falsy. -/
def inputIsEmpty (input : AnalyzeFoodInput) : Bool :=
  input.imageFile.isNone && !jsTruthyS input.imageUrl &&
  !jsTruthyS input.text && !jsTruthyS input.audioTranscript

/-- `[input.text, input.audioTranscript].filter(Boolean).join(" ").trim()`
(analyzeFood.ts 60). -/
def buildQueryText (input : AnalyzeFoodInput) : String :=
  jsTrimStr (String.intercalate (" ")
    (([input.text, input.audioTranscript]).filterMap (fun o =>
      match o with
      | none => none
      | some s => if s == "" then none else some s)))

/-- Fingerprint and query-type selection (analyzeFood.ts 63-75): combined
when an image file AND non-empty query text are present, image-only for a
bare image file, else the text hash (note: an `imageUrl` is never
hashed). -/
def computeQueryHash (input : AnalyzeFoodInput) (queryText : String) :
    String × String :=
  match input.imageFile with
  | some f =>
    if queryText == "" then (generateImageHash f, "image")
    else (generateCombinedHash queryText (some f), "combined")
  | none => (generateTextHash queryText, "text")

/-- Prompt assembly (analyzeFood.ts 104-111). -/
def buildTextPrompt (input : AnalyzeFoodInput) : String :=
  let p := ""
  let p := p ++ (if jsTruthyS input.mealType then
    "Context: This is a " ++ jsInterp input.mealType ++ " meal.\n" else "")
  let p := p ++ (if jsTruthyS input.text then
    "Food description: " ++ jsInterp input.text ++ "\n" else "")
  let p := p ++ (if jsTruthyS input.audioTranscript then
    "Voice description: " ++ jsInterp input.audioTranscript ++ "\n" else "")
  if p == "" && input.imageFile.isSome then
    "Analyze this food image and provide nutritional information."
  else p

/-- `fileToBase64` (client.ts 328-332). -/
def fileToBase64 (file : JsFile) : String := base64String file.content

/-- The tail of the cache-miss path of `analyzeFood` (analyzeFood.ts
123-160) after the awaited chain call produced `result`: reject an
unsuccessful or data-less envelope, validate name and calories, save to
cache, and return the fresh result. -/
def freshPathCore (result : AIAnalysisResult)
    (logSave : Option String) (input : AnalyzeFoodInput)
    (queryHash queryType queryText : String) (cacheChecked : Bool) : AnalyzeTrace :=
  if !result.success || result.data.isNone then
    ⟨⟨false, some (jsOrS result.error "Failed to analyze food"), none,
      result.provider, none, none⟩,
     cacheChecked, some result, none⟩
  else
    match result.data with
    | none =>
      ⟨⟨false, some (jsOrS result.error "Failed to analyze food"), none,
        result.provider, none, none⟩,
       cacheChecked, some result, none⟩
    | some d =>
      if d.name == "" || d.calories.isNone then
        ⟨⟨false, some ("Invalid nutritional data received"), none, none, none, none⟩,
         cacheChecked, some result, none⟩
      else
        let logId := if input.saveToLog then logSave else none
        ⟨⟨true, none, some d, result.provider, some false, logId⟩,
         cacheChecked, some result,
         some ⟨queryHash, queryType, jsOrStr queryText d.name, d, result.provider⟩⟩

/-- The shared cache-miss tail of `analyzeFood` (analyzeFood.ts 104-160):
assemble the prompt and image, invoke the chain, then continue with
`freshPathCore` on the chain's envelope. -/
def freshPath (chain : String → Option String → Option String → AIAnalysisResult)
    (logSave : Option String) (input : AnalyzeFoodInput)
    (queryHash queryType queryText : String) (cacheChecked : Bool) : AnalyzeTrace :=
  let textPrompt := buildTextPrompt input
  let imageBase64 := input.imageFile.map fileToBase64
  let imageMimeType := input.imageFile.map (fun f => jsOrStr f.mime "image/jpeg")
  freshPathCore (chain textPrompt imageBase64 imageMimeType)
    logSave input queryHash queryType queryText cacheChecked

/-- `analyzeFood` (analyzeFood.ts 52-165). -/
def analyzeFood (cacheGet : String → Option CachedFood)
    (chain : String → Option String → Option String → AIAnalysisResult)
    (logSave : Option String) (input : AnalyzeFoodInput) : AnalyzeTrace :=
  if inputIsEmpty input then
    ⟨⟨false, some ("Please provide an image, text, or voice description"),
      none, none, none, none⟩,
     false, none, none⟩
  else
    let queryText := buildQueryText input
    let qh := computeQueryHash input queryText
    if !input.skipCache then
      match cacheGet qh.1 with
      | some cached =>
        let nutritionData := cachedToNutrition cached
        let logId := if input.saveToLog then logSave else none
        ⟨⟨true, none, some nutritionData, cached.aiProvider, some true, logId⟩,
         true, none, none⟩
      | none => freshPath chain logSave input qh.1 qh.2 queryText true
    else freshPath chain logSave input qh.1 qh.2 queryText false

/-! ## Helper lemmas -/

theorem jsOrInt_zero (n : Int) : jsOrInt n 0 = n := by
  unfold jsOrInt
  by_cases h : n = 0 <;> simp [h]

theorem jsToLower_space {c : Char} (h : isJsSpace c = true) : jsToLower c = c := by
  unfold isJsSpace at h
  simp only [Bool.or_eq_true, decide_eq_true_eq] at h
  unfold jsToLower
  have hcond : ¬((65 ≤ c.toNat && c.toNat ≤ 90) = true) := by
    simp only [Bool.and_eq_true, decide_eq_true_eq, not_and]
    omega
  rw [if_neg hcond]

theorem map_jsToLower_space {w : List Char} (h : ∀ c ∈ w, isJsSpace c = true) :
    w.map jsToLower = w := by
  induction w with
  | nil => rfl
  | cons c rest ih =>
    simp only [List.map_cons, List.cons.injEq]
    exact ⟨jsToLower_space (h c (by simp)),
      ih (fun x hx => h x (by simp [hx]))⟩

theorem jsTrim_pad {w1 w2 x : List Char}
    (h1 : ∀ c ∈ w1, isJsSpace c = true) (h2 : ∀ c ∈ w2, isJsSpace c = true) :
    jsTrimChars (w1 ++ x ++ w2) = jsTrimChars x := by
  unfold jsTrimChars
  rw [List.append_assoc, List.dropWhile_append_of_pos h1, List.dropWhile_append]
  by_cases he : (x.dropWhile isJsSpace).isEmpty
  · have hx2 : w2.dropWhile isJsSpace = [] := List.dropWhile_eq_nil_iff.mpr h2
    have hx : x.dropWhile isJsSpace = [] := by
      rwa [List.isEmpty_iff] at he
    simp [he, hx2, hx]
  · have h2r : ∀ c ∈ w2.reverse, isJsSpace c = true := by
      intro c hc
      exact h2 c (List.mem_reverse.mp hc)
    rw [if_neg he, List.reverse_append, List.dropWhile_append_of_pos h2r]

/-- After an upsert, the point lookup by the payload's fingerprint finds
exactly the inserted/replaced row. -/
theorem find?_upsertRows (p : UpsertPayload) (newId now : Nat)
    (rows : List FoodCacheRow) :
    List.find? (fun r => r.query_hash == p.query_hash) (upsertRows p newId now rows) =
      some (match List.find? (fun r => r.query_hash == p.query_hash) rows with
            | some old => applyPayload old p
            | none => insertRow p newId now) := by
  induction rows with
  | nil => simp [upsertRows, insertRow]
  | cons r rest ih =>
    by_cases hr : r.query_hash == p.query_hash
    · simp [upsertRows, hr, applyPayload]
    · have hr' : (r.query_hash == p.query_hash) = false := by simpa using hr
      simp only [upsertRows, hr', if_false, Bool.false_eq_true, List.find?]
      exact ih

/-- The hit-count update rewrites `hit_count`/`last_used_at` only, so it
commutes with the fingerprint predicate of the point lookup. -/
theorem find?_dbUpdateHit (db : CacheDB) (i : Nat) (c : Int) (now : Nat)
    (h : String) :
    dbSelectByHash (dbUpdateHit db i c now) h =
      (dbSelectByHash db h).map (fun row =>
        if row.id == i then { row with hit_count := c, last_used_at := now }
        else row) := by
  unfold dbSelectByHash dbUpdateHit
  have hp : ((fun row : FoodCacheRow => row.query_hash == h) ∘
      (fun row : FoodCacheRow =>
        if row.id == i then { row with hit_count := c, last_used_at := now }
        else row)) = fun row : FoodCacheRow => row.query_hash == h := by
    funext row
    by_cases hid : row.id == i <;> simp [hid, Function.comp]
  rw [List.find?_map, hp]

/-! ## Claims -/

/-- C2 (amended): two inputs with the same normalized form always get the
same fingerprint; differences only in letter case, or only in surrounding
whitespace, never produce different fingerprints. (The punctuation clause
of the original claim is refuted by `C2_counterexample`.) -/
theorem C2_theorem (a b : String) (w1 w2 w3 w4 core : List Char) :
    (normalizeText a = normalizeText b →
      generateTextHash a = generateTextHash b) ∧
    (jsToLowerStr a = jsToLowerStr b →
      generateTextHash a = generateTextHash b) ∧
    ((∀ c ∈ w1, isJsSpace c = true) → (∀ c ∈ w2, isJsSpace c = true) →
     (∀ c ∈ w3, isJsSpace c = true) → (∀ c ∈ w4, isJsSpace c = true) →
      generateTextHash (String.mk (w1 ++ core ++ w2)) =
        generateTextHash (String.mk (w3 ++ core ++ w4))) := by
  have hnorm : ∀ x y : String, normalizeText x = normalizeText y →
      generateTextHash x = generateTextHash y := by
    intro x y hxy
    unfold generateTextHash
    rw [hxy]
  refine ⟨hnorm a b, ?_, ?_⟩
  · intro hl
    apply hnorm
    unfold normalizeText
    have : a.data.map jsToLower = b.data.map jsToLower :=
      congrArg String.data hl
    rw [this]
  · intro h1 h2 h3 h4
    apply hnorm
    unfold normalizeText
    have key : ∀ (u v : List Char), (∀ c ∈ u, isJsSpace c = true) →
        (∀ c ∈ v, isJsSpace c = true) →
        jsTrimChars ((String.mk (u ++ core ++ v)).data.map jsToLower) =
          jsTrimChars (core.map jsToLower) := by
      intro u v hu hv
      show jsTrimChars ((u ++ core ++ v).map jsToLower) = _
      rw [List.map_append, List.map_append, map_jsToLower_space hu,
        map_jsToLower_space hv]
      exact jsTrim_pad hu hv
    rw [key w1 w2 h1 h2, key w3 w4 h3 h4]

/-- C2 counterexample: `"a . b"` and `"a  b"` differ only in punctuation
(deleting the punctuation class from each yields the same string), yet
their fingerprints differ: stripping happens after whitespace collapsing,
so removing the dot leaves a double space in one normalized form. -/
theorem C2_counterexample :
    removePunct ("a . b") = removePunct ("a  b") ∧
    normalizeText ("a . b") = "a  b" ∧ normalizeText ("a  b") = "a b" ∧
    generateTextHash ("a . b") ≠ generateTextHash ("a  b") := by
  refine ⟨by decide, by decide, by decide, by decide⟩

/-- C2 witness: the spec's own example pair, via `C2_theorem`. -/
theorem C2_witness :
    generateTextHash ("  Rajma   Chawal!! ") = generateTextHash ("rajma chawal") :=
  (C2_theorem ("  Rajma   Chawal!! ") ("rajma chawal") [] [] [] [] []).1 (by decide)

/-- C8: storage errors never propagate — an erroring `get` returns a miss
and leaves the store untouched, an erroring `put` returns `false` and
leaves the store untouched, an erroring `findSimilar` returns `[]`. -/
theorem C8_theorem (e : String) (db : CacheDB) (now : Nat)
    (h qt qtxt q : String) (r : NutritionResult) (p : String) (lim : Nat) :
    getCachedResult (some e) db now h = (none, db) ∧
    saveToCach (some e) db now h qt qtxt r p = (false, db) ∧
    findSimilarCached q lim (Except.error e) = [] :=
  ⟨rfl, rfl, rfl⟩

/-- C10 (amended): `cachedToNutrition` is total, forces `confidence` to
`"high"`, and substitutes defaults for falsy fields (grams 100 when
absent or zero, score `"good"` when absent, tip `""`, portion size
`"medium"`); the health score stays in the four-value enumeration
whenever the stored score is absent, empty, or itself in the enumeration
(which the table's CHECK constraint guarantees), but the portion size is
passed through unvalidated, so any non-empty stored string survives
coercion. -/
theorem C10_theorem (cached : CachedFood) :
    (cachedToNutrition cached).confidence = "high" ∧
    ((cached.portionGrams = none ∨ cached.portionGrams = some 0) →
      (cachedToNutrition cached).portionGrams = 100) ∧
    (∀ g, cached.portionGrams = some g → g ≠ 0 →
      (cachedToNutrition cached).portionGrams = g) ∧
    ((cached.healthScore = none ∨ cached.healthScore = some "") →
      (cachedToNutrition cached).healthScore = "good") ∧
    ((cached.healthTip = none ∨ cached.healthTip = some "") →
      (cachedToNutrition cached).healthTip = "") ∧
    ((cached.portionSize = none ∨ cached.portionSize = some "") →
      (cachedToNutrition cached).portionSize = "medium") ∧
    ((cached.healthScore = none ∨ cached.healthScore = some "" ∨
      (∃ s, cached.healthScore = some s ∧
        s ∈ (["excellent", "good", "moderate", "indulgent"] : List String))) →
      (cachedToNutrition cached).healthScore ∈
        (["excellent", "good", "moderate", "indulgent"] : List String)) ∧
    (∀ s, cached.portionSize = some s → s ≠ "" →
      (cachedToNutrition cached).portionSize = s) := by
  unfold cachedToNutrition jsOrS jsOrStr jsOrOptInt jsOrInt
  refine ⟨rfl, ?_, ?_, ?_, ?_, ?_, ?_, ?_⟩
  · rintro (hg | hg) <;> simp [hg]
  · intro g hg hgne
    simp [hg, hgne]
  · rintro (hs | hs) <;> simp [hs]
  · rintro (ht | ht) <;> simp [ht]
  · rintro (hp | hp) <;> simp [hp]
  · rintro (hs | hs | ⟨s, hs, hmem⟩) <;> simp [hs]
    by_cases hse : s = "" <;> simp [hse] at hmem ⊢ <;> simpa [hse] using hmem
  · intro s hs hsne
    simp [hs, hsne]

/-- C10 counterexample: a cached record whose stored portion size is the
non-empty string `"huge"` (the `portion_size` column carries no CHECK
constraint) coerces to a result whose portion size is outside
`{small, medium, large}`. -/
theorem C10_counterexample :
    (cachedToNutrition ⟨0, "qh", "Samosa", some 250, 5, 30, 12, 3,
        some "huge", some 150, some "good", some "tip", none, none,
        some "groq", 1⟩).portionSize = "huge" ∧
    ("huge" : String) ∉ (["small", "medium", "large"] : List String) := by
  refine ⟨by decide, by decide⟩

/-- C10 witness: defaults at a record with all optional fields absent. -/
theorem C10_witness :
    (cachedToNutrition ⟨0, "qh", "Dal", some 100, 5, 10, 2, 1, none, none,
        none, none, none, none, none, 1⟩).portionGrams = 100 ∧
    (cachedToNutrition ⟨0, "qh", "Dal", some 100, 5, 10, 2, 1, none, none,
        none, none, none, none, none, 1⟩).healthScore = "good" ∧
    (cachedToNutrition ⟨0, "qh", "Dal", some 100, 5, 10, 2, 1, none, none,
        none, none, none, none, none, 1⟩).portionSize = "medium" :=
  ⟨(C10_theorem _).2.1 (Or.inl rfl),
   (C10_theorem _).2.2.2.1 (Or.inl rfl),
   (C10_theorem _).2.2.2.2.2.1 (Or.inl rfl)⟩

/-- C6: a request with no image file, no image URL, no text and no
transcript is rejected with the invalid-input message, with no provider
invocation and no cache read or write. -/
theorem C6_theorem (cacheGet : String → Option CachedFood)
    (chain : String → Option String → Option String → AIAnalysisResult)
    (logSave : Option String) (input : AnalyzeFoodInput)
    (h : inputIsEmpty input = true) :
    analyzeFood cacheGet chain logSave input =
      ⟨⟨false, some ("Please provide an image, text, or voice description"),
        none, none, none, none⟩,
       false, none, none⟩ := by
  unfold analyzeFood
  simp [h]

/-- C6 witness: the empty request. -/
theorem C6_witness :
    analyzeFood (fun _ => none) (fun _ _ _ => ⟨false, none, none, none⟩)
      none ⟨none, none, none, none, none, false, false⟩ =
      ⟨⟨false, some ("Please provide an image, text, or voice description"),
        none, none, none, none⟩,
       false, none, none⟩ :=
  C6_theorem _ _ _ _ (by decide)

/-- C4: the chain always calls the primary (Groq) first; the secondary
(Gemini) is called exactly when the primary failed (thrown provider
error, falsy response body, or JSON-parse failure each produce a
failure); a primary success is returned as-is with the secondary never
invoked; when both fail the chain fails with both error messages
concatenated. -/
theorem C4_theorem (groqResp : Except String (Option String))
    (geminiResp : Except String String)
    (jsonParse : String → Option NutritionResult) :
    (analyzeWithFallback groqResp geminiResp jsonParse).groqCalled = true ∧
    ((analyzeWithFallback groqResp geminiResp jsonParse).geminiCalled = true ↔
      (analyzeWithGroq groqResp jsonParse).success = false) ∧
    ((analyzeWithGroq groqResp jsonParse).success = true →
      (analyzeWithFallback groqResp geminiResp jsonParse).result =
        analyzeWithGroq groqResp jsonParse ∧
      (analyzeWithFallback groqResp geminiResp jsonParse).geminiCalled = false) ∧
    ((analyzeWithGroq groqResp jsonParse).success = false →
      (analyzeWithGemini geminiResp jsonParse).success = true →
      (analyzeWithFallback groqResp geminiResp jsonParse).result =
        analyzeWithGemini geminiResp jsonParse) ∧
    ((analyzeWithGroq groqResp jsonParse).success = false →
      (analyzeWithGemini geminiResp jsonParse).success = false →
      (analyzeWithFallback groqResp geminiResp jsonParse).result.success = false ∧
      (analyzeWithFallback groqResp geminiResp jsonParse).result.error =
        some ("Both AI providers failed. Groq: " ++
          jsInterp (analyzeWithGroq groqResp jsonParse).error ++ ". Gemini: " ++
          jsInterp (analyzeWithGemini geminiResp jsonParse).error)) ∧
    (∀ e, groqResp = Except.error e →
      (analyzeWithGroq groqResp jsonParse).success = false) ∧
    (groqResp = Except.ok none ∨ groqResp = Except.ok (some "") →
      (analyzeWithGroq groqResp jsonParse).success = false) ∧
    (∀ c, groqResp = Except.ok (some c) → parseAIResponse jsonParse c = none →
      (analyzeWithGroq groqResp jsonParse).success = false) := by
  have conj6 : ∀ e, groqResp = Except.error e →
      (analyzeWithGroq groqResp jsonParse).success = false := by
    rintro e rfl
    rfl
  have conj7 : groqResp = Except.ok none ∨ groqResp = Except.ok (some "") →
      (analyzeWithGroq groqResp jsonParse).success = false := by
    rintro (rfl | rfl)
    · rfl
    · simp [analyzeWithGroq]
  have conj8 : ∀ c, groqResp = Except.ok (some c) →
      parseAIResponse jsonParse c = none →
      (analyzeWithGroq groqResp jsonParse).success = false := by
    rintro c rfl hp
    unfold analyzeWithGroq
    by_cases hc : c == "" <;> simp [hc, hp]
  unfold analyzeWithFallback
  by_cases hg : (analyzeWithGroq groqResp jsonParse).success
  · exact ⟨by simp [hg], by simp [hg], fun _ => ⟨by simp [hg], by simp [hg]⟩,
      fun hgf => absurd hg (by simp [hgf]), fun hgf => absurd hg (by simp [hgf]),
      conj6, conj7, conj8⟩
  · simp only [Bool.not_eq_true] at hg
    by_cases hm : (analyzeWithGemini geminiResp jsonParse).success
    · exact ⟨by simp [hg, hm], by simp [hg, hm],
        fun hgs => absurd hgs (by simp [hg]),
        fun _ _ => by simp [hg, hm], fun _ hmf => absurd hm (by simp [hmf]),
        conj6, conj7, conj8⟩
    · simp only [Bool.not_eq_true] at hm
      exact ⟨by simp [hg, hm], by simp [hg, hm],
        fun hgs => absurd hgs (by simp [hg]),
        fun _ hms => absurd hms (by simp [hm]),
        fun _ _ => ⟨by simp [hg, hm], by simp [hg, hm]⟩,
        conj6, conj7, conj8⟩

/-- On a lookup hit, `getCachedResult` returns the row as read and bumps
the stored hit count. -/
theorem getCachedResult_found {db : CacheDB} {h : String} {row0 : FoodCacheRow}
    (now : Nat) (hsel : dbSelectByHash db h = some row0) :
    getCachedResult none db now h =
      (some (rowToCachedFood row0),
       dbUpdateHit db row0.id (jsOrInt row0.hit_count 0 + 1) now) := by
  unfold getCachedResult
  rw [hsel]

theorem selectByHash_after_update {db : CacheDB} {h : String}
    {row0 : FoodCacheRow} (hsel : dbSelectByHash db h = some row0)
    (c : Int) (now : Nat) :
    dbSelectByHash (dbUpdateHit db row0.id c now) h =
      some { row0 with hit_count := c, last_used_at := now } := by
  rw [find?_dbUpdateHit, hsel]
  simp

/-- Core of the put-then-get analysis: a hit on a row with stored count 1
returns that row unchanged and leaves the stored count at 2. -/
theorem put_get_core {db1 : CacheDB} {h : String} {row0 : FoodCacheRow}
    (t1 : Nat) (hsel : dbSelectByHash db1 h = some row0)
    (hc : row0.hit_count = 1) :
    (getCachedResult none db1 t1 h).1 = some (rowToCachedFood row0) ∧
    dbSelectByHash (getCachedResult none db1 t1 h).2 h =
      some { row0 with hit_count := 2, last_used_at := t1 } := by
  have hupd := getCachedResult_found t1 hsel
  refine ⟨by rw [hupd], ?_⟩
  rw [hupd, hc]
  have h2 : jsOrInt 1 0 + 1 = (2 : Int) := by decide
  rw [h2]
  exact selectByHash_after_update hsel 2 t1

/-- C1 (amended): `put` followed immediately by `get` on the same
fingerprint returns a record whose payload fields equal what was put, but
with `hit_count = 1` — the value read before the get-side increment; the
increment is applied to the STORE, whose row afterwards carries
`hit_count = 2` and a refreshed `last_used_at`. -/
theorem C1_theorem (db : CacheDB) (t0 t1 : Nat) (h qt qtxt : String)
    (r : NutritionResult) (prov : String) :
    ∃ cf row,
      (getCachedResult none (saveToCach none db t0 h qt qtxt r prov).2 t1 h).1
        = some cf ∧
      cf.foodName = r.name ∧ cf.calories = r.calories ∧
      cf.protein = r.protein ∧ cf.carbs = r.carbs ∧ cf.fats = r.fats ∧
      cf.fiber = r.fiber ∧ cf.portionSize = some r.portionSize ∧
      cf.portionGrams = some r.portionGrams ∧
      cf.healthScore = some r.healthScore ∧ cf.healthTip = some r.healthTip ∧
      cf.hitCount = 1 ∧
      dbSelectByHash
        (getCachedResult none (saveToCach none db t0 h qt qtxt r prov).2 t1 h).2 h
        = some row ∧
      row.hit_count = 2 ∧ row.last_used_at = t1 := by
  have hsel : dbSelectByHash (saveToCach none db t0 h qt qtxt r prov).2 h =
      some (match List.find? (fun row => row.query_hash ==
              (mkUpsertPayload h qt qtxt r prov t0).query_hash) db.rows with
            | some old => applyPayload old (mkUpsertPayload h qt qtxt r prov t0)
            | none => insertRow (mkUpsertPayload h qt qtxt r prov t0) db.nextId t0) :=
    find?_upsertRows (mkUpsertPayload h qt qtxt r prov t0) db.nextId t0 db.rows
  cases hfind : List.find? (fun row => row.query_hash ==
      (mkUpsertPayload h qt qtxt r prov t0).query_hash) db.rows with
  | none =>
    rw [hfind] at hsel
    obtain ⟨h1, h2⟩ := put_get_core t1 hsel rfl
    refine ⟨_, _, h1, ?_, ?_, ?_, ?_, ?_, ?_, ?_, ?_, ?_, ?_, ?_, h2, rfl, rfl⟩ <;>
      simp [rowToCachedFood, insertRow, mkUpsertPayload, jsOrInt_zero]
  | some old =>
    rw [hfind] at hsel
    obtain ⟨h1, h2⟩ := put_get_core t1 hsel rfl
    refine ⟨_, _, h1, ?_, ?_, ?_, ?_, ?_, ?_, ?_, ?_, ?_, ?_, ?_, h2, rfl, rfl⟩ <;>
      simp [rowToCachedFood, applyPayload, mkUpsertPayload, jsOrInt_zero]

/-- C1 counterexample: at a concrete put-then-get, the RETURNED record
carries `hit_count = 1`, not 2 as claimed (the store, not the returned
snapshot, holds 2). -/
theorem C1_counterexample :
    ((getCachedResult none
        (saveToCach none emptyDB 0 ("abc123") ("text") ("idli")
          ⟨"Idli", some 39, 2, 8, 0, 1, "medium", 30, "excellent", "steamed",
            none, none, "high", none⟩
          ("groq")).2 1 ("abc123")).1.map CachedFood.hitCount) = some 1 ∧
    some (1 : Int) ≠ some (2 : Int) :=
  ⟨by decide, by decide⟩

/-- C7 (amended): a second `put` on an already-present fingerprint fully
replaces the stored payload, resets `hit_count` to 1 and sets
`last_used_at` to now — but `created_at` is preserved from the first
insert, because the upsert payload carries no `created_at` column. -/
theorem C7_theorem (db : CacheDB) (t1 t2 : Nat)
    (h qt1 qtx1 qt2 qtx2 : String) (r1 r2 : NutritionResult) (p1 p2 : String)
    (hfresh : dbSelectByHash db h = none) :
    ∃ row,
      dbSelectByHash (saveToCach none (saveToCach none db t1 h qt1 qtx1 r1 p1).2
          t2 h qt2 qtx2 r2 p2).2 h = some row ∧
      row.food_name = r2.name ∧ row.calories = r2.calories ∧
      row.protein = r2.protein ∧ row.carbs = r2.carbs ∧ row.fats = r2.fats ∧
      row.fiber = jsOrInt r2.fiber 0 ∧
      row.portion_size = some r2.portionSize ∧
      row.portion_grams = some r2.portionGrams ∧
      row.health_score = some r2.healthScore ∧
      row.health_tip = some r2.healthTip ∧
      row.cooking_method = r2.cookingMethod ∧
      row.cuisine_type = r2.cuisineType ∧
      row.ai_provider = some p2 ∧ row.query_type = qt2 ∧
      row.query_text = String.mk (qtx2.data.take 500) ∧
      row.hit_count = 1 ∧ row.last_used_at = t2 ∧ row.created_at = t1 := by
  have hfresh1 : List.find? (fun row => row.query_hash ==
      (mkUpsertPayload h qt1 qtx1 r1 p1 t1).query_hash) db.rows = none := hfresh
  have hsel1 : dbSelectByHash (saveToCach none db t1 h qt1 qtx1 r1 p1).2 h =
      some (match List.find? (fun row => row.query_hash ==
              (mkUpsertPayload h qt1 qtx1 r1 p1 t1).query_hash) db.rows with
            | some old => applyPayload old (mkUpsertPayload h qt1 qtx1 r1 p1 t1)
            | none => insertRow (mkUpsertPayload h qt1 qtx1 r1 p1 t1) db.nextId t1) :=
    find?_upsertRows (mkUpsertPayload h qt1 qtx1 r1 p1 t1) db.nextId t1 db.rows
  rw [hfresh1] at hsel1
  have hs : List.find? (fun row => row.query_hash ==
      (mkUpsertPayload h qt2 qtx2 r2 p2 t2).query_hash)
      (saveToCach none db t1 h qt1 qtx1 r1 p1).2.rows =
      some (insertRow (mkUpsertPayload h qt1 qtx1 r1 p1 t1) db.nextId t1) := hsel1
  have hsel2 : dbSelectByHash (saveToCach none (saveToCach none db t1 h qt1
      qtx1 r1 p1).2 t2 h qt2 qtx2 r2 p2).2 h =
      some (match List.find? (fun row => row.query_hash ==
              (mkUpsertPayload h qt2 qtx2 r2 p2 t2).query_hash)
              (saveToCach none db t1 h qt1 qtx1 r1 p1).2.rows with
            | some old => applyPayload old (mkUpsertPayload h qt2 qtx2 r2 p2 t2)
            | none => insertRow (mkUpsertPayload h qt2 qtx2 r2 p2 t2)
                (saveToCach none db t1 h qt1 qtx1 r1 p1).2.nextId t2) :=
    find?_upsertRows (mkUpsertPayload h qt2 qtx2 r2 p2 t2)
      (saveToCach none db t1 h qt1 qtx1 r1 p1).2.nextId t2
      (saveToCach none db t1 h qt1 qtx1 r1 p1).2.rows
  rw [hs] at hsel2
  refine ⟨_, hsel2, ?_, ?_, ?_, ?_, ?_, ?_, ?_, ?_, ?_, ?_, ?_, ?_, ?_, ?_,
    ?_, ?_, ?_⟩ <;>
    simp [applyPayload, insertRow, mkUpsertPayload]

/-- C7 counterexample: two puts at times 1 and 5 on the same fingerprint
leave `created_at = 1`; the claim's "both timestamps set to now on every
put, including overwrites" fails for the creation timestamp. -/
theorem C7_counterexample :
    ((dbSelectByHash (saveToCach none
        (saveToCach none emptyDB 1 ("abc123") ("text") ("old")
          ⟨"Old Dish", some 100, 1, 2, 3, 4, "small", 50, "good", "t1",
            none, none, "high", none⟩ ("groq")).2
        5 ("abc123") ("text") ("new")
          ⟨"New Dish", some 200, 5, 6, 7, 8, "large", 90, "moderate", "t2",
            none, none, "high", none⟩ ("gemini")).2
        ("abc123")).map FoodCacheRow.created_at) = some 1 ∧
    (1 : Nat) ≠ 5 :=
  ⟨by decide, by decide⟩

/-- C7 witness: concrete double put via `C7_theorem`. -/
theorem C7_witness :
    ∃ row,
      dbSelectByHash (saveToCach none
        (saveToCach none emptyDB 1 ("abc123") ("text") ("old")
          ⟨"Old Dish", some 100, 1, 2, 3, 4, "small", 50, "good", "t1",
            none, none, "high", none⟩ ("groq")).2
        5 ("abc123") ("text") ("new")
          ⟨"New Dish", some 200, 5, 6, 7, 8, "large", 90, "moderate", "t2",
            none, none, "high", none⟩ ("gemini")).2
        ("abc123") = some row ∧
      row.food_name = "New Dish" ∧ row.hit_count = 1 ∧
      row.last_used_at = 5 ∧ row.created_at = 1 := by
  obtain ⟨row, hsel, hname, _, _, _, _, _, _, _, _, _, _, _, _, _, _, hc, hl, hcr⟩ :=
    C7_theorem emptyDB 1 5 ("abc123") ("text") ("old") ("text") ("new")
      ⟨"Old Dish", some 100, 1, 2, 3, 4, "small", 50, "good", "t1",
        none, none, "high", none⟩
      ⟨"New Dish", some 200, 5, 6, 7, 8, "large", 90, "moderate", "t2",
        none, none, "high", none⟩
      ("groq") ("gemini") rfl
  exact ⟨row, hsel, hname, hc, hl, hcr⟩

/-- Unfolding of `analyzeFood` into its explicit branch structure. -/
theorem analyzeFood_eq (cacheGet : String → Option CachedFood)
    (chain : String → Option String → Option String → AIAnalysisResult)
    (logSave : Option String) (input : AnalyzeFoodInput) :
    analyzeFood cacheGet chain logSave input =
      if inputIsEmpty input then
        ⟨⟨false, some ("Please provide an image, text, or voice description"),
          none, none, none, none⟩,
         false, none, none⟩
      else if !input.skipCache then
        match cacheGet (computeQueryHash input (buildQueryText input)).1 with
        | some cached =>
          ⟨⟨true, none, some (cachedToNutrition cached), cached.aiProvider,
            some true, if input.saveToLog then logSave else none⟩,
           true, none, none⟩
        | none =>
          freshPath chain logSave input
            (computeQueryHash input (buildQueryText input)).1
            (computeQueryHash input (buildQueryText input)).2
            (buildQueryText input) true
      else
        freshPath chain logSave input
          (computeQueryHash input (buildQueryText input)).1
          (computeQueryHash input (buildQueryText input)).2
          (buildQueryText input) false := rfl

/-- Every branch of the post-chain tail records the chain envelope. -/
theorem freshPathCore_freshResult (result : AIAnalysisResult)
    (logSave : Option String) (input : AnalyzeFoodInput)
    (qh qt qtxt : String) (cc : Bool) :
    (freshPathCore result logSave input qh qt qtxt cc).freshResult =
      some result := by
  rw [freshPathCore]
  split
  · rfl
  · split
    · rfl
    · split
      · rfl
      · rfl

/-- Cache-write behavior of the post-chain tail: a write happens exactly
when the chain envelope was successful with data passing validation;
otherwise a failure outcome is returned with no write. -/
theorem freshPathCore_spec (result : AIAnalysisResult)
    (logSave : Option String) (input : AnalyzeFoodInput)
    (qh qt qtxt : String) (cc : Bool) :
    ((freshPathCore result logSave input qh qt qtxt cc).cacheWrite.isSome = true ↔
      ∃ res d,
        (freshPathCore result logSave input qh qt qtxt cc).freshResult = some res ∧
        res.success = true ∧ res.data = some d ∧ d.name ≠ "" ∧
        d.calories ≠ none) ∧
    (∀ res,
      (freshPathCore result logSave input qh qt qtxt cc).freshResult = some res →
      res.success = false →
      (freshPathCore result logSave input qh qt qtxt cc).result.success = false ∧
      (freshPathCore result logSave input qh qt qtxt cc).cacheWrite = none) ∧
    (∀ res d,
      (freshPathCore result logSave input qh qt qtxt cc).freshResult = some res →
      res.data = some d → (d.name = "" ∨ d.calories = none) →
      (freshPathCore result logSave input qh qt qtxt cc).result.success = false ∧
      (freshPathCore result logSave input qh qt qtxt cc).cacheWrite = none) := by
  refine ⟨⟨?_, ?_⟩, ?_, ?_⟩
  · intro hw
    by_cases hs : result.success
    · cases hd : result.data with
      | none =>
        rw [freshPathCore] at hw
        simp [hs, hd] at hw
      | some d0 =>
        by_cases hb : (d0.name == "" || d0.calories.isNone)
        · rw [freshPathCore] at hw
          simp only [hs, hd, Bool.not_true, Bool.false_or, Option.isNone_some,
            Bool.false_eq_true, if_false, hb, if_true] at hw
          simp at hw
        · have hname : d0.name ≠ "" := by
            intro hx
            simp [hx] at hb
          have hcal : d0.calories ≠ none := by
            intro hx
            simp [hx] at hb
          exact ⟨result, d0, freshPathCore_freshResult result logSave input
            qh qt qtxt cc, hs, hd, hname, hcal⟩
    · simp only [Bool.not_eq_true] at hs
      rw [freshPathCore] at hw
      simp [hs] at hw
  · rintro ⟨res, d, hr, hsucc, hdata, hname, hcal⟩
    rw [freshPathCore_freshResult] at hr
    obtain rfl := Option.some.inj hr
    have hb : (d.name == "" || d.calories.isNone) = false := by
      simp [hname, Option.isNone_eq_false_iff, Option.isSome_iff_ne_none, hcal]
    rw [freshPathCore]
    simp [hsucc, hdata, hb]
  · intro res hr hrs
    rw [freshPathCore_freshResult] at hr
    obtain rfl := Option.some.inj hr
    constructor <;> (rw [freshPathCore]; simp [hrs])
  · intro res d hr hrd hbd
    rw [freshPathCore_freshResult] at hr
    obtain rfl := Option.some.inj hr
    by_cases hs : result.success
    · rcases hbd with hb | hb <;>
        (constructor <;> (rw [freshPathCore]; simp [hs, hrd, hb]))
    · simp only [Bool.not_eq_true] at hs
      constructor <;> (rw [freshPathCore]; simp [hs])

/-- C5: `analyzeFood` attempts a cache write iff a fresh inference was
performed, succeeded, and passed validation (non-empty name, numeric
calories); a failed chain (AnalysisUnavailable) or invalid payload
(InvalidProviderData) yields a failure outcome with no cache write. -/
theorem C5_theorem (cacheGet : String → Option CachedFood)
    (chain : String → Option String → Option String → AIAnalysisResult)
    (logSave : Option String) (input : AnalyzeFoodInput) (t : AnalyzeTrace)
    (ht : t = analyzeFood cacheGet chain logSave input) :
    (t.cacheWrite.isSome = true ↔
      ∃ res d, t.freshResult = some res ∧ res.success = true ∧
        res.data = some d ∧ d.name ≠ "" ∧ d.calories ≠ none) ∧
    (∀ res, t.freshResult = some res → res.success = false →
      t.result.success = false ∧ t.cacheWrite = none) ∧
    (∀ res d, t.freshResult = some res → res.data = some d →
      (d.name = "" ∨ d.calories = none) →
      t.result.success = false ∧ t.cacheWrite = none) := by
  subst ht
  rw [analyzeFood_eq]
  by_cases hempty : inputIsEmpty input
  · rw [if_pos hempty]
    exact ⟨by simp, fun res hr => absurd hr (by simp),
      fun res d hr => absurd hr (by simp)⟩
  · rw [if_neg hempty]
    by_cases hskip : input.skipCache
    · have : (!input.skipCache) = false := by simp [hskip]
      rw [this, if_neg (by simp)]
      exact freshPathCore_spec _ _ _ _ _ _ _
    · have : (!input.skipCache) = true := by simp [hskip]
      rw [this, if_pos rfl]
      cases hhit : cacheGet (computeQueryHash input (buildQueryText input)).1 with
      | some cached =>
        exact ⟨by simp, fun res hr => absurd hr (by simp),
          fun res d hr => absurd hr (by simp)⟩
      | none =>
        exact freshPathCore_spec _ _ _ _ _ _ _

/-- C5 witness: a chain stubbed to fail on a text request yields a
failure outcome and no cache write. -/
theorem C5_witness :
    (analyzeFood (fun _ => none)
      (fun _ _ _ => ⟨false, none, none, some ("boom")⟩) none
      ⟨none, none, some ("dal"), none, none, false, false⟩).result.success
      = false ∧
    (analyzeFood (fun _ => none)
      (fun _ _ _ => ⟨false, none, none, some ("boom")⟩) none
      ⟨none, none, some ("dal"), none, none, false, false⟩).cacheWrite = none :=
  (C5_theorem (fun _ => none) (fun _ _ _ => ⟨false, none, none, some ("boom")⟩)
      none ⟨none, none, some ("dal"), none, none, false, false⟩ _ rfl).2.1
    ⟨false, none, none, some ("boom")⟩ (by decide) rfl

/-- C3: with `skipCache` unset and the fingerprint present in the store,
`analyzeFood` returns the cached record coerced by `cachedToNutrition`
(whose confidence is forced to `"high"`), tagged `fromCache = true` with
the cached provider identity, and invokes no provider and writes
nothing. -/
theorem C3_theorem (cacheGet : String → Option CachedFood)
    (chain : String → Option String → Option String → AIAnalysisResult)
    (logSave : Option String) (input : AnalyzeFoodInput) (cached : CachedFood)
    (hne : inputIsEmpty input = false)
    (hskip : input.skipCache = false)
    (hhit : cacheGet (computeQueryHash input (buildQueryText input)).1
      = some cached) :
    (analyzeFood cacheGet chain logSave input).result.success = true ∧
    (analyzeFood cacheGet chain logSave input).result.data =
      some (cachedToNutrition cached) ∧
    (cachedToNutrition cached).confidence = "high" ∧
    (analyzeFood cacheGet chain logSave input).result.fromCache = some true ∧
    (analyzeFood cacheGet chain logSave input).result.provider =
      cached.aiProvider ∧
    (analyzeFood cacheGet chain logSave input).freshResult = none ∧
    (analyzeFood cacheGet chain logSave input).cacheWrite = none := by
  have ha : analyzeFood cacheGet chain logSave input =
      ⟨⟨true, none, some (cachedToNutrition cached), cached.aiProvider,
        some true, if input.saveToLog then logSave else none⟩,
       true, none, none⟩ := by
    rw [analyzeFood_eq, if_neg (by simp [hne]), if_pos (by simp [hskip]), hhit]
  rw [ha]
  exact ⟨rfl, rfl, rfl, rfl, rfl, rfl, rfl⟩

/-- C3 witness: a concrete cache hit. -/
theorem C3_witness :
    (analyzeFood (fun _ => some ⟨1, "qh", "Idli", some 39, 2, 8, 0, 1,
        some "small", some 30, some "excellent", some "steam it", none, none,
        some "groq", 3⟩)
      (fun _ _ _ => ⟨false, none, none, none⟩) none
      ⟨none, none, some ("idli"), none, none, false, false⟩).result.data =
      some (cachedToNutrition ⟨1, "qh", "Idli", some 39, 2, 8, 0, 1,
        some "small", some 30, some "excellent", some "steam it", none, none,
        some "groq", 3⟩) ∧
    (analyzeFood (fun _ => some ⟨1, "qh", "Idli", some 39, 2, 8, 0, 1,
        some "small", some 30, some "excellent", some "steam it", none, none,
        some "groq", 3⟩)
      (fun _ _ _ => ⟨false, none, none, none⟩) none
      ⟨none, none, some ("idli"), none, none, false, false⟩).result.fromCache =
      some true ∧
    (analyzeFood (fun _ => some ⟨1, "qh", "Idli", some 39, 2, 8, 0, 1,
        some "small", some 30, some "excellent", some "steam it", none, none,
        some "groq", 3⟩)
      (fun _ _ _ => ⟨false, none, none, none⟩) none
      ⟨none, none, some ("idli"), none, none, false, false⟩).freshResult =
      none := by
  have h := C3_theorem (fun _ => some ⟨1, "qh", "Idli", some 39, 2, 8, 0, 1,
      some "small", some 30, some "excellent", some "steam it", none, none,
      some "groq", 3⟩)
    (fun _ _ _ => ⟨false, none, none, none⟩) none
    ⟨none, none, some ("idli"), none, none, false, false⟩
    ⟨1, "qh", "Idli", some 39, 2, 8, 0, 1, some "small", some 30,
      some "excellent", some "steam it", none, none, some "groq", 3⟩
    (by decide) rfl rfl
  exact ⟨h.2.1, h.2.2.2.1, h.2.2.2.2.2.1⟩

/-- C9: a request carrying only an image URL (no image file, no text, no
transcript) passes input validation, and its cache fingerprint is the
text-type hash of the empty string — the same single cache key for every
such request, whatever the URL. -/
theorem C9_theorem (input : AnalyzeFoodInput)
    (hfile : input.imageFile = none)
    (hurl : jsTruthyS input.imageUrl = true)
    (htext : jsTruthyS input.text = false)
    (htrans : jsTruthyS input.audioTranscript = false) :
    inputIsEmpty input = false ∧
    buildQueryText input = "" ∧
    computeQueryHash input (buildQueryText input) =
      (generateTextHash (""), "text") := by
  have htext' : input.text = none ∨ input.text = some "" := by
    cases htx : input.text with
    | none => exact Or.inl rfl
    | some s =>
      right
      unfold jsTruthyS at htext
      rw [htx] at htext
      simp at htext
      rw [htext]
  have htrans' : input.audioTranscript = none ∨ input.audioTranscript = some "" := by
    cases htx : input.audioTranscript with
    | none => exact Or.inl rfl
    | some s =>
      right
      unfold jsTruthyS at htrans
      rw [htx] at htrans
      simp at htrans
      rw [htrans]
  have hq : buildQueryText input = "" := by
    rcases htext' with h1 | h1 <;> rcases htrans' with h2 | h2 <;>
      simp only [buildQueryText, h1, h2] <;> decide
  refine ⟨?_, hq, ?_⟩
  · unfold inputIsEmpty
    rw [hurl]
    simp
  · rw [hq]
    unfold computeQueryHash
    rw [hfile]

/-- C9 witness: a concrete image-URL-only request. -/
theorem C9_witness :
    inputIsEmpty ⟨none, some ("https://cdn.example/shot.jpg"), none, none,
      none, false, false⟩ = false ∧
    buildQueryText ⟨none, some ("https://cdn.example/shot.jpg"), none, none,
      none, false, false⟩ = "" ∧
    computeQueryHash ⟨none, some ("https://cdn.example/shot.jpg"), none, none,
      none, false, false⟩
      (buildQueryText ⟨none, some ("https://cdn.example/shot.jpg"), none, none,
        none, false, false⟩) = (generateTextHash (""), "text") :=
  C9_theorem _ rfl (by decide) (by decide) (by decide)

/-- C4 witness: both providers throwing yields the concatenated
diagnostic message. -/
theorem C4_witness :
    (analyzeWithFallback (Except.error ("E1")) (Except.error ("E2"))
      (fun _ => none)).result.success = false ∧
    (analyzeWithFallback (Except.error ("E1")) (Except.error ("E2"))
      (fun _ => none)).result.error =
      some ("Both AI providers failed. Groq: E1. Gemini: E2") := by
  have h := (C4_theorem (Except.error ("E1")) (Except.error ("E2"))
    (fun _ => none)).2.2.2.2.1 rfl rfl
  exact ⟨h.1, h.2⟩

end Vera
